import Mathlib

/-!
Verification development for the gems-pump firmware (blongworth/gems-pump).

The repository contains two variants of the valve controller:
* `src/src/main.cpp` — the sketch-style firmware (free functions, statics);
* `src/lib/ValveManager/ValveManager.{h,cpp}` — the library refactor.

Both are shallowly embedded below.  Machine integers are modelled as `Nat`
(with explicit wrap for the 32-bit `unsigned long` / `time_t` arithmetic)
resp. `Int` for the sensor readings (`int` on Teensy, readings fit easily).
Hardware side effects (servo writes) are modelled as explicit outputs
(`Option Int` = the pulse width handed to `Servo::writeMicroseconds`, if any);
the SD card is modelled as an association list from file name to the list of
written lines.  Ambient inputs (the INA260 readings, `millis()`, `now()`,
TimeLib's calendar break-down of `now()`, and the pending serial command
byte) are passed in as an environment record, one reading per source-level
call site.
-/

namespace GemsPump

/-! ### Constants (src/src/main.cpp lines 40-51, ValveManager.h lines 32-60) -/

/-- `VALVE_BOTTOM_POS` — servo microseconds for the bottom position. -/
def VALVE_BOTTOM_POS : Int := 1205

/-- `VALVE_TOP_POS` — servo microseconds for the top position. -/
def VALVE_TOP_POS : Int := 1795

/-- `VALVE_HOME_POS` — servo microseconds for the safe home position. -/
def VALVE_HOME_POS : Int := 1500

/-- `LOW_VOLTAGE_THRESHOLD` — minimum bus voltage in mV. -/
def LOW_VOLTAGE_THRESHOLD : Int := 10000

/-- `MIN_MOVE_INTERVAL` — minimum time between valve movements (ms). -/
def MIN_MOVE_INTERVAL : Nat := 2000

/-- `POWER_CHECK_INTERVAL` — power monitoring interval (ms), main.cpp. -/
def POWER_CHECK_INTERVAL : Nat := 10

/-- `LOG_INTERVAL` — data logging interval in seconds. -/
def LOG_INTERVAL : Nat := 10

/-- `VALVE_CHANGE_INTERVAL` in main.cpp (450 s); the ValveManager header's
default is 30 s and is a configuration macro, modelled as a parameter. -/
def VALVE_CHANGE_INTERVAL : Nat := 450

/-- 2^32, the modulus of `unsigned long` / `time_t` arithmetic on Teensy. -/
def UINT32_MOD : Nat := 4294967296

/-- Wrap-safe unsigned 32-bit subtraction `a - b` as C computes it. -/
def usub32 (a b : Nat) : Nat :=
  (a % UINT32_MOD + (UINT32_MOD - b % UINT32_MOD)) % UINT32_MOD

/-! ### TimeLib accessors.  TimeLib's `breakTime` computes
`second(t) = t % 60`, `minute(t) = (t / 60) % 60`, `hour(t) = (t / 3600) % 24`
from the `time_t` seconds count; the calendar fields (`year`, `month`, `day`)
involve leap-year tables and are abstracted as environment inputs below. -/

/-- TimeLib `second(t)`. -/
def secondOfT (t : Nat) : Nat := t % 60

/-- TimeLib `minute(t)`. -/
def minuteOfT (t : Nat) : Nat := t / 60 % 60

/-- TimeLib `hour(t)`. -/
def hourOfT (t : Nat) : Nat := t / 3600 % 24

/-! ### The scheduler (main.cpp `calculateExpectedValvePosition`,
ValveManager.cpp `_calculateExpectedValvePosition`) -/

/-- main.cpp lines 342-348: schedule position from `now()`, fixed 450 s
interval. -/
def calculateExpectedValvePosition (t : Nat) : Int :=
  let totalSeconds := minuteOfT t * 60 + secondOfT t
  let intervalNumber := totalSeconds / VALVE_CHANGE_INTERVAL
  if intervalNumber % 2 = 0 then VALVE_BOTTOM_POS else VALVE_TOP_POS

/-- Spec-side rendering of §4.1 `next_scheduled_position`, written from the
spec's words for refinement comparison: `elapsed = minutes_of_hour * 60 +
seconds_of_minute`, `slot = elapsed / interval_seconds`, `Bottom` (its
set-point) if `slot` is even else `Top`. -/
def nextScheduledPositionSpec (minuteOfHour secondOfMinute interval : Nat) : Int :=
  let elapsed := minuteOfHour * 60 + secondOfMinute
  let slot := elapsed / interval
  if slot % 2 = 0 then VALVE_BOTTOM_POS else VALVE_TOP_POS

/-! ### Telemetry strings (main.cpp lines 161-240, ValveManager.cpp 128-243) -/

/-- Two-digit zero padding, `%02d` for values a calendar produces. -/
def pad2 (n : Nat) : String :=
  if n < 10 then "0" ++ toString n else toString n

/-- Four-digit zero padding, `%04d`. -/
def pad4 (n : Nat) : String :=
  if n < 10 then "000" ++ toString n
  else if n < 100 then "00" ++ toString n
  else if n < 1000 then "0" ++ toString n
  else toString n

/-- `"%04d-%02d-%02dT%02d:%02d:%02dZ"` timestamp (both variants). -/
def isoTimestamp (year month dayOfMonth hour minute second : Nat) : String :=
  pad4 year ++ "-" ++ pad2 month ++ "-" ++ pad2 dayOfMonth ++ "T" ++
    pad2 hour ++ ":" ++ pad2 minute ++ ":" ++ pad2 second ++ "Z"

/-- The CSV header line, `"timestamp,voltage,current,valve_position"`
(main.cpp line 188, ValveManager.cpp line 197). -/
def headerLine : String := "timestamp,voltage,current,valve_position"

/-- `"gems_pump_%04d-%02d-%02d.csv"` (main.cpp line 181,
ValveManager.cpp line 190). -/
def logFilename (year month dayOfMonth : Nat) : String :=
  "gems_pump_" ++ pad4 year ++ "-" ++ pad2 month ++ "-" ++ pad2 dayOfMonth ++ ".csv"

/-- The telemetry record `"%s,%d,%d,%d\n"` (main.cpp line 225,
ValveManager.cpp line 230). -/
def logLine (ts : String) (voltage current valvePosition : Int) : String :=
  ts ++ "," ++ toString voltage ++ "," ++ toString current ++ "," ++
    toString valvePosition ++ "\n"

/-- `"Rebooted at %s\n"` written by `initializeSD` / `_initializeSD`. -/
def rebootLine (ts : String) : String := "Rebooted at " ++ ts ++ "\n"

/-! ### SD card model: an association list file name -> written lines. -/

/-- `SD.exists`. -/
def existsFile (fname : String) (files : List (String × List String)) : Bool :=
  files.any fun p => p.1 == fname

/-- `SD.open(fname, FILE_WRITE)` followed by writing one line: appends to the
file, creating it when absent (FILE_WRITE semantics). -/
def appendLine (fname line : String) : List (String × List String) → List (String × List String)
  | [] => [(fname, [line])]
  | p :: rest =>
      if p.1 = fname then (p.1, p.2 ++ [line]) :: rest
      else p :: appendLine fname line rest

/-! ### Ambient inputs for one pass of the control code.  Each field is one
source-level read of a sensor, clock or serial port. -/

/-- Environment of one tick: `t` is `now()` (the calls to `now()` within one
pass return the same instant), `year`/`month`/`dayOfMonth` are TimeLib's
calendar break-down of `t`, `millisA`/`voltA` are the `millis()` and bus
voltage reads in `checkPowerAndHome`, `millisB`/`voltB` those inside
`setValvePosition`, `voltLog`/`currLog` the sensor reads in `logPowerData`,
and `cmd` the pending external-serial command byte, if any. -/
structure Env where
  t : Nat
  year : Nat
  month : Nat
  dayOfMonth : Nat
  millisA : Nat
  voltA : Int
  millisB : Nat
  voltB : Int
  voltLog : Int
  currLog : Int
  cmd : Option Char

/-- Positional `Env` builder (field order as declared), for concrete
scenario environments. -/
def mkEnv (t year month dayOfMonth millisA : Nat) (voltA : Int) (millisB : Nat)
    (voltB voltLog currLog : Int) (cmd : Option Char) : Env :=
  ⟨t, year, month, dayOfMonth, millisA, voltA, millisB, voltB, voltLog, currLog, cmd⟩

/-- Timestamp string of a tick (both loggers format the same fields). -/
def tsOf (e : Env) : String :=
  isoTimestamp e.year e.month e.dayOfMonth (hourOfT e.t) (minuteOfT e.t) (secondOfT e.t)

/-- The `'t'`/`'b'` command decoding of `handleValveControl`
(main.cpp lines 251-260, ValveManager.cpp lines 151-160); `0` means
"no target this tick". -/
def targetFromCommand (cmd : Option Char) : Int :=
  match cmd with
  | some c => if c = 't' then VALVE_TOP_POS else if c = 'b' then VALVE_BOTTOM_POS else 0
  | none => 0

/-- The compile-time `SERIAL_CONTROL` switch of main.cpp as a mode value. -/
inductive ControlMode
  | scheduled
  | serial

/-! ### The main.cpp machine.  State fields are the globals and function
statics of main.cpp; `valvePos` is the last value written to the servo
(`Servo::readMicroseconds` returns the last written pulse width). -/

/-- main.cpp mutable state: servo readback, `setValvePosition`'s static
`lastMoveTime`, `checkPowerAndHome`'s static `lastCheck`, EEPROM byte 0,
`currentLogFile`, the day-of-month of `updateLogFilename`'s static `lastDay`,
`logPowerData`'s static `lastLogTime`, and the SD card contents. -/
structure MainState where
  valvePos : Int
  lastMoveTime : Nat
  lastCheck : Nat
  eeprom : Nat
  currentLogFile : String
  lastDayOfMonth : Nat
  lastLogTime : Nat
  files : List (String × List String)

/-- Fresh-boot main.cpp state: statics zero (`day(0) = 1` for the zero
`lastDay`), no log file chosen yet, empty SD card; the servo readback and
EEPROM byte at boot are arbitrary and therefore parameters. -/
def mainInit (v0 : Int) (e0 : Nat) : MainState :=
  { valvePos := v0, lastMoveTime := 0, lastCheck := 0, eeprom := e0,
    currentLogFile := "", lastDayOfMonth := 1, lastLogTime := 0, files := [] }

/-- main.cpp lines 279-299 `setValvePosition`: rate gate on wrapping
`millis()` difference, then the low-voltage interlock (write home, skip the
EEPROM update), else write the requested position and persist
`position == VALVE_TOP_POS` as byte 1/0.  The second component is the pulse
width issued to the servo, if any. -/
def setValvePosition (position : Int) (nowMs : Nat) (voltage : Int) (s : MainState) :
    MainState × Option Int :=
  if usub32 nowMs s.lastMoveTime < MIN_MOVE_INTERVAL then (s, none)
  else
    let s1 := { s with lastMoveTime := nowMs }
    if voltage < LOW_VOLTAGE_THRESHOLD then
      ({ s1 with valvePos := VALVE_HOME_POS }, some VALVE_HOME_POS)
    else
      ({ s1 with valvePos := position,
                 eeprom := if position = VALVE_TOP_POS then 1 else 0 }, some position)

/-- main.cpp lines 321-332 `checkPowerAndHome`: on its own 10 ms cadence,
drive the valve home when the bus voltage is low and the valve is not already
home.  It neither consults the rate limiter nor touches `lastMoveTime`. -/
def checkPowerAndHome (nowMs : Nat) (voltage : Int) (s : MainState) :
    MainState × Option Int :=
  if usub32 nowMs s.lastCheck < POWER_CHECK_INTERVAL then (s, none)
  else
    let s1 := { s with lastCheck := nowMs }
    if voltage < LOW_VOLTAGE_THRESHOLD ∧ s1.valvePos ≠ VALVE_HOME_POS then
      ({ s1 with valvePos := VALVE_HOME_POS }, some VALVE_HOME_POS)
    else (s1, none)

/-- main.cpp lines 246-277 `handleValveControl`: target from the serial
command (SERIAL_CONTROL build) or the scheduler, move when a target exists
and differs from the readback. -/
def handleValveControl (mode : ControlMode) (e : Env) (s : MainState) :
    MainState × Option Int :=
  let currentPosition := s.valvePos
  let targetPosition :=
    match mode with
    | .serial => targetFromCommand e.cmd
    | .scheduled => calculateExpectedValvePosition e.t
  if targetPosition ≠ 0 ∧ currentPosition ≠ targetPosition then
    setValvePosition targetPosition e.millisB e.voltB s
  else (s, none)

/-- main.cpp lines 176-194 `updateLogFilename`: rotate to the dated file name
when none is set or the day-of-month changed, creating the file with the
header line when it does not yet exist. -/
def updateLogFilename (e : Env) (s : MainState) : MainState :=
  if s.currentLogFile = "" ∨ e.dayOfMonth ≠ s.lastDayOfMonth then
    let fname := logFilename e.year e.month e.dayOfMonth
    let files1 := if existsFile fname s.files then s.files
                  else (fname, [headerLine]) :: s.files
    { s with currentLogFile := fname, lastDayOfMonth := e.dayOfMonth, files := files1 }
  else s

/-- main.cpp lines 200-240 `logPowerData`: on the wrapping `time_t` cadence,
append one record line (timestamp, voltage, current, servo readback in native
microseconds) to the current log file; duplicates of the line go to the two
serial sinks. -/
def logPowerData (e : Env) (s : MainState) : MainState :=
  if usub32 e.t s.lastLogTime < LOG_INTERVAL then s
  else
    let line := logLine (tsOf e) e.voltLog e.currLog s.valvePos
    { s with files := appendLine s.currentLogFile line s.files, lastLogTime := e.t }

/-- main.cpp lines 152-170 `initializeSD`: choose the log file (creating it
with the header) and append the reboot marker. -/
def initializeSD (e : Env) (s : MainState) : MainState :=
  let s1 := updateLogFilename e s
  { s1 with files := appendLine s1.currentLogFile (rebootLine (tsOf e)) s1.files }

/-- Whether main.cpp's `initializeSystem` lets `setup` continue: the RTC sync
result is only printed (lines 135-136), whereas a missing INA260 hangs the
firmware in `while (1)` (lines 139-142). -/
inductive InitResult
  | proceeds
  | halts

/-- main.cpp lines 129-150 `initializeSystem`, reduced to its control flow
over the two fallible collaborators. -/
def initializeSystem (clockSynced sensorFound : Bool) : InitResult :=
  if sensorFound then .proceeds else .halts

/-- main.cpp lines 93-107 `setup` after `initializeSystem`: SD bring-up, then
(SERIAL_CONTROL builds only) command the position decoded from EEPROM byte 0
(`EEPROM.read(0) ? VALVE_TOP_POS : VALVE_BOTTOM_POS`). -/
def setup (mode : ControlMode) (e : Env) (s : MainState) : MainState × Option Int :=
  let s1 := initializeSD e s
  match mode with
  | .serial =>
      setValvePosition (if s1.eeprom ≠ 0 then VALVE_TOP_POS else VALVE_BOTTOM_POS)
        e.millisB e.voltB s1
  | .scheduled => (s1, none)

/-- main.cpp lines 113-123 `loop`: power check, valve control, log-file
rotation, telemetry.  Outputs collect the servo writes of the tick. -/
def loop (mode : ControlMode) (e : Env) (s : MainState) : MainState × List Int :=
  let r1 := checkPowerAndHome e.millisA e.voltA s
  let r2 := handleValveControl mode e r1.1
  let s3 := updateLogFilename e r2.1
  let s4 := logPowerData e s3
  (s4, r1.2.toList ++ r2.2.toList)

/-- Iterate `loop` over a list of tick environments, collecting all servo
writes in order. -/
def runLoop (mode : ControlMode) (es : List Env) (s : MainState) : MainState × List Int :=
  match es with
  | [] => (s, [])
  | e :: rest =>
      let r := loop mode e s
      let r2 := runLoop mode rest r.1
      (r2.1, r.2 ++ r2.2)

/-! ### The ValveManager library (src/lib/ValveManager).  The header's
configuration macros (`SERIAL_CONTROL`, `VALVE_CHANGE_INTERVAL`) become a
configuration record fixed for a run. -/

/-- ValveManager.h configuration macros: `VALVE_SERIAL_CONTROL_ENABLED` and
the `VALVE_CHANGE_INTERVAL` seconds (header default 30). -/
structure Config where
  serialControlEnabled : Bool
  valveChangeInterval : Nat

namespace ValveManager

/-- ValveManager instance state: `_initialized`, servo readback,
`_lastMoveMillis`, EEPROM byte 0, `_currentLogFile`, the day-of-month of
`_updateLogFilename`'s static `lastDay`, `_lastLogTime`, and the SD card. -/
structure State where
  initialized : Bool
  valvePos : Int
  lastMoveMillis : Nat
  eeprom : Nat
  currentLogFile : String
  lastDayOfMonth : Nat
  lastLogTime : Nat
  files : List (String × List String)

/-- A freshly constructed ValveManager (constructor plus member
initializers): not initialized, timers zero (`day(0) = 1`), no log file,
empty card; servo readback and EEPROM byte are ambient, hence parameters. -/
def initState (v0 : Int) (e0 : Nat) : State :=
  { initialized := false, valvePos := v0, lastMoveMillis := 0, eeprom := e0,
    currentLogFile := "", lastDayOfMonth := 1, lastLogTime := 0, files := [] }

/-- ValveManager.cpp lines 50-65 `setValvePosition`: guard on
`_initialized`, rate gate on wrapping `millis()` difference, then write the
requested position unconditionally (no voltage check in this variant) and
persist `position == VALVE_TOP_POS` as byte 1/0. -/
def setValvePosition (position : Int) (nowMs : Nat) (s : State) : State × Option Int :=
  if s.initialized = false then (s, none)
  else if usub32 nowMs s.lastMoveMillis < MIN_MOVE_INTERVAL then (s, none)
  else
    ({ s with lastMoveMillis := nowMs, valvePos := position,
              eeprom := if position = VALVE_TOP_POS then 1 else 0 }, some position)

/-- ValveManager.cpp lines 263-267 `_calculateExpectedValvePosition`, with
the `VALVE_CHANGE_INTERVAL` macro as the `interval` parameter. -/
def calculateExpectedValvePosition (interval : Nat) (t : Nat) : Int :=
  let totalSeconds := minuteOfT t * 60 + secondOfT t
  let intervalNumber := totalSeconds / interval
  if intervalNumber % 2 = 0 then VALVE_BOTTOM_POS else VALVE_TOP_POS

/-- ValveManager.cpp lines 205-243 `_logPowerData`: append one record line
(timestamp, voltage, current, servo readback) to the current log file. -/
def logPowerData (e : Env) (s : State) : State :=
  let line := logLine (tsOf e) e.voltLog e.currLog s.valvePos
  { s with files := appendLine s.currentLogFile line s.files }

/-- ValveManager.cpp lines 185-203 `_updateLogFilename` (identical logic to
main.cpp's `updateLogFilename`). -/
def updateLogFilename (e : Env) (s : State) : State :=
  if s.currentLogFile = "" ∨ e.dayOfMonth ≠ s.lastDayOfMonth then
    let fname := logFilename e.year e.month e.dayOfMonth
    let files1 := if existsFile fname s.files then s.files
                  else (fname, [headerLine]) :: s.files
    { s with currentLogFile := fname, lastDayOfMonth := e.dayOfMonth, files := files1 }
  else s

/-- ValveManager.cpp lines 145-183 `_handleValveControl`: command- or
schedule-derived target, move when it exists and differs from the readback,
then log when `now()` advanced past `_lastLogTime` and the second-of-minute
hits the logging cadence. -/
def handleValveControl (cfg : Config) (e : Env) (s : State) : State × Option Int :=
  let currentPosition := s.valvePos
  let targetPosition :=
    if cfg.serialControlEnabled then targetFromCommand e.cmd
    else calculateExpectedValvePosition cfg.valveChangeInterval e.t
  let r :=
    if targetPosition ≠ 0 ∧ currentPosition ≠ targetPosition then
      setValvePosition targetPosition e.millisB s
    else (s, none)
  if e.t ≤ r.1.lastLogTime then r
  else if secondOfT e.t % LOG_INTERVAL ≠ 0 then r
  else ({ logPowerData e r.1 with lastLogTime := e.t }, r.2)

/-- ValveManager.cpp lines 38-48 `update`: no-op unless initialized, else
valve control (including its logging tail) then log-file rotation. -/
def update (cfg : Config) (e : Env) (s : State) : State × Option Int :=
  if s.initialized = false then (s, none)
  else
    let r := handleValveControl cfg e s
    (updateLogFilename e r.1, r.2)

/-- ValveManager.cpp lines 67-71 `getCurrentPosition`. -/
def getCurrentPosition (s : State) : Int :=
  if s.initialized = false then 0 else s.valvePos

/-- ValveManager.cpp lines 73-77 `getVoltage`; `reading` is what the INA260
would return. -/
def getVoltage (s : State) (reading : Int) : Int :=
  if s.initialized = false then 0 else reading

/-- ValveManager.cpp lines 79-83 `getCurrent`. -/
def getCurrent (s : State) (reading : Int) : Int :=
  if s.initialized = false then 0 else reading

/-- ValveManager.cpp lines 85-88 `logData`. -/
def logData (e : Env) (s : State) : State :=
  if s.initialized = false then s else logPowerData e s

/-- ValveManager.cpp lines 14-36 `begin`: `_initializeSystem` fails on RTC
sync failure or missing INA260, `_initializeSD` fails when the card is
absent; on success the log file is chosen (header created) and the reboot
marker appended, then — when serial control is enabled — the position
decoded from EEPROM byte 0 is commanded *before* `_initialized` is set, so
that `setValvePosition` call hits its `!_initialized` guard. -/
def begin (cfg : Config) (clockSynced sensorFound sdOk : Bool) (e : Env) (s : State) :
    State × Option Int :=
  if clockSynced = false then (s, none)
  else if sensorFound = false then (s, none)
  else if sdOk = false then (s, none)
  else
    let s1 := updateLogFilename e s
    let s2 := { s1 with files := appendLine s1.currentLogFile (rebootLine (tsOf e)) s1.files }
    let r :=
      if cfg.serialControlEnabled then
        setValvePosition (if s2.eeprom ≠ 0 then VALVE_TOP_POS else VALVE_BOTTOM_POS)
          e.millisB s2
      else (s2, none)
    ({ r.1 with initialized := true }, r.2)

/-- Public operations available after construction, for whole-run
statements. -/
inductive Op
  | update (e : Env)
  | logData (e : Env)
  | setValvePosition (p : Int) (nowMs : Nat)

/-- Run a list of public operations, collecting servo writes. -/
def runOps (cfg : Config) (ops : List Op) (s : State) : State × List Int :=
  match ops with
  | [] => (s, [])
  | op :: rest =>
      let r : State × Option Int :=
        match op with
        | .update e => update cfg e s
        | .logData e => (logData e s, none)
        | .setValvePosition p n => setValvePosition p n s
      let r2 := runOps cfg rest r.1
      (r2.1, r.2.toList ++ r2.2)

end ValveManager

/-! ### Property-side definitions used by the theorems below. -/

/-- A well-formed log segment: exactly one header line, and it is the first
line of the file. -/
def goodFile (p : String × List String) : Bool :=
  (List.count headerLine p.2 == 1) && (p.2.head? == some headerLine)

/-- All files on the card are well-formed segments. -/
def goodFiles (files : List (String × List String)) : Bool :=
  files.all goodFile

/-- Ghost recomputation of EEPROM byte 0 from the servo-write history: the
byte encoding (1 for `VALVE_TOP_POS`, 0 otherwise) of the most recent issued
position that was not `VALVE_HOME_POS`, starting from `init`. -/
def lastNonHomeEnc (outs : List Int) (init : Nat) : Nat :=
  outs.foldl
    (fun acc p => if p = VALVE_HOME_POS then acc
                  else if p = VALVE_TOP_POS then 1 else 0) init

/-- A sequence of direct calls to main.cpp's `setValvePosition`
(requested position, `millis()`, bus voltage); returns the final state and
the `millis()` stamps of the calls whose actuation was accepted, in order. -/
def runSet (calls : List (Int × Nat × Int)) (s : MainState) : MainState × List Nat :=
  match calls with
  | [] => (s, [])
  | c :: rest =>
      let r := setValvePosition c.1 c.2.1 c.2.2 s
      let r2 := runSet rest r.1
      (r2.1, (if r.2.isSome then [c.2.1] else []) ++ r2.2)

/-- Consecutive timestamps (chronological order) are at least
`MIN_MOVE_INTERVAL` apart in wrap-safe 32-bit subtraction, the first also
relative to `last`. -/
def spacedFrom (last : Nat) : List Nat → Prop
  | [] => True
  | t :: rest => MIN_MOVE_INTERVAL ≤ usub32 t last ∧ spacedFrom t rest

/-- Storage invariant of the main.cpp machine: all segments are well formed
and the selected log file, once set, is on the card. -/
def mainInv (s : MainState) : Prop :=
  goodFiles s.files = true ∧
    (s.currentLogFile = "" ∨ existsFile s.currentLogFile s.files = true)

/-- Storage invariant of a ValveManager instance: all segments are well
formed, the selected log file, once set, is on the card, and an initialized
instance always has a log file selected (established by `begin`). -/
def vmInv (s : ValveManager.State) : Prop :=
  goodFiles s.files = true ∧
    (s.currentLogFile = "" ∨ existsFile s.currentLogFile s.files = true) ∧
    (s.initialized = true → s.currentLogFile ≠ "")

/-! ### String facts -/

theorem string_data_append (a b : String) : (a ++ b).data = a.data ++ b.data := rfl

theorem mem_data_append_right (a : String) {b : String} {c : Char}
    (h : c ∈ b.data) : c ∈ (a ++ b).data := by
  rw [string_data_append]
  exact List.mem_append_right _ h

theorem newline_not_mem_headerLine : '\n' ∉ headerLine.data := by decide

theorem newline_mem_logLine (ts : String) (v c p : Int) :
    '\n' ∈ (logLine ts v c p).data := by
  unfold logLine
  repeat apply mem_data_append_right
  decide

theorem newline_mem_rebootLine (ts : String) : '\n' ∈ (rebootLine ts).data := by
  unfold rebootLine
  repeat apply mem_data_append_right
  decide

theorem logLine_ne_headerLine (ts : String) (v c p : Int) :
    logLine ts v c p ≠ headerLine := by
  intro h
  exact newline_not_mem_headerLine (h ▸ newline_mem_logLine ts v c p)

theorem rebootLine_ne_headerLine (ts : String) : rebootLine ts ≠ headerLine := by
  intro h
  exact newline_not_mem_headerLine (h ▸ newline_mem_rebootLine ts)

theorem logFilename_ne_empty (y m d : Nat) : logFilename y m d ≠ "" := by
  intro h
  have h2 : some 'g' = (none : Option Char) := by
    calc some 'g' = (logFilename y m d).data.head? := rfl
    _ = ("" : String).data.head? := by rw [h]
    _ = none := rfl
  exact Option.noConfusion h2

/-! ### SD-card model facts -/

theorem existsFile_appendLine_mono (fname line g : String)
    (files : List (String × List String)) (h : existsFile g files = true) :
    existsFile g (appendLine fname line files) = true := by
  induction files with
  | nil => simp [existsFile] at h
  | cons p rest ih =>
      simp only [existsFile, List.any_cons, Bool.or_eq_true] at h ⊢
      unfold appendLine
      by_cases hp : p.1 = fname
      · rw [if_pos hp]
        simpa [existsFile] using h
      · rw [if_neg hp]
        rcases h with h | h
        · simp [existsFile, h]
        · have := ih (by simpa [existsFile] using h)
          simp only [existsFile, List.any_cons, Bool.or_eq_true] at this ⊢
          right
          simpa [existsFile] using this

theorem goodFile_append_of_ne {p : String × List String} {line : String}
    (hgood : goodFile p = true) (hne : line ≠ headerLine) :
    goodFile (p.1, p.2 ++ [line]) = true := by
  unfold goodFile at hgood ⊢
  rw [Bool.and_eq_true] at hgood ⊢
  obtain ⟨h1, h2⟩ := hgood
  have hc : List.count headerLine p.2 = 1 := by simpa using h1
  have hh : p.2.head? = some headerLine := by simpa using h2
  constructor
  · have : List.count headerLine (p.2 ++ [line]) = 1 := by
      rw [List.count_append, hc, List.count_singleton']
      simp [hne]
    simpa using this
  · cases p2 : p.2 with
    | nil => rw [p2] at hh; simp at hh
    | cons a t =>
        rw [p2] at hh
        simp only [List.head?] at hh
        simpa using hh

theorem goodFiles_appendLine {fname line : String}
    {files : List (String × List String)} (hex : existsFile fname files = true)
    (hgood : goodFiles files = true) (hne : line ≠ headerLine) :
    goodFiles (appendLine fname line files) = true := by
  induction files with
  | nil => simp [existsFile] at hex
  | cons p rest ih =>
      simp only [goodFiles, List.all_cons, Bool.and_eq_true] at hgood
      obtain ⟨hp, hrest⟩ := hgood
      unfold appendLine
      by_cases hpf : p.1 = fname
      · rw [if_pos hpf]
        simp only [goodFiles, List.all_cons, Bool.and_eq_true]
        exact ⟨goodFile_append_of_ne hp hne, hrest⟩
      · rw [if_neg hpf]
        have hex2 : existsFile fname rest = true := by
          simp only [existsFile, List.any_cons, Bool.or_eq_true] at hex
          rcases hex with h | h
          · exact absurd (by simpa using h) hpf
          · simpa [existsFile] using h
        simp only [goodFiles, List.all_cons, Bool.and_eq_true]
        exact ⟨hp, ih hex2 (by simpa [goodFiles] using hrest)⟩

theorem goodFiles_create (fname : String) {files : List (String × List String)}
    (hgood : goodFiles files = true) :
    goodFiles ((fname, [headerLine]) :: files) = true := by
  simp only [goodFiles, List.all_cons, Bool.and_eq_true]
  refine ⟨?_, by simpa [goodFiles] using hgood⟩
  unfold goodFile
  simp [List.count_singleton']

theorem existsFile_create (fname : String) (files : List (String × List String)) :
    existsFile fname ((fname, [headerLine]) :: files) = true := by
  simp [existsFile]

/-! ### Characterizations of the move primitives -/

theorem setValvePosition_spec (p : Int) (n : Nat) (v : Int) (s : MainState) :
    (usub32 n s.lastMoveTime < MIN_MOVE_INTERVAL ∧ setValvePosition p n v s = (s, none))
    ∨ (MIN_MOVE_INTERVAL ≤ usub32 n s.lastMoveTime ∧ v < LOW_VOLTAGE_THRESHOLD ∧
        setValvePosition p n v s =
          ({ s with lastMoveTime := n, valvePos := VALVE_HOME_POS }, some VALVE_HOME_POS))
    ∨ (MIN_MOVE_INTERVAL ≤ usub32 n s.lastMoveTime ∧ LOW_VOLTAGE_THRESHOLD ≤ v ∧
        setValvePosition p n v s =
          ({ s with lastMoveTime := n, valvePos := p,
                    eeprom := if p = VALVE_TOP_POS then 1 else 0 }, some p)) := by
  by_cases h1 : usub32 n s.lastMoveTime < MIN_MOVE_INTERVAL
  · exact Or.inl ⟨h1, by simp [setValvePosition, h1]⟩
  · by_cases h2 : v < LOW_VOLTAGE_THRESHOLD
    · exact Or.inr (Or.inl ⟨Nat.le_of_not_lt h1, h2, by simp [setValvePosition, h1, h2]⟩)
    · exact Or.inr (Or.inr ⟨Nat.le_of_not_lt h1, Int.not_lt.mp h2,
        by simp [setValvePosition, h1, h2]⟩)

theorem checkPowerAndHome_spec (n : Nat) (v : Int) (s : MainState) :
    (usub32 n s.lastCheck < POWER_CHECK_INTERVAL ∧ checkPowerAndHome n v s = (s, none))
    ∨ (POWER_CHECK_INTERVAL ≤ usub32 n s.lastCheck ∧
        (v < LOW_VOLTAGE_THRESHOLD ∧ s.valvePos ≠ VALVE_HOME_POS) ∧
        checkPowerAndHome n v s =
          ({ s with lastCheck := n, valvePos := VALVE_HOME_POS }, some VALVE_HOME_POS))
    ∨ (POWER_CHECK_INTERVAL ≤ usub32 n s.lastCheck ∧
        ¬(v < LOW_VOLTAGE_THRESHOLD ∧ s.valvePos ≠ VALVE_HOME_POS) ∧
        checkPowerAndHome n v s = ({ s with lastCheck := n }, none)) := by
  by_cases h1 : usub32 n s.lastCheck < POWER_CHECK_INTERVAL
  · exact Or.inl ⟨h1, by simp [checkPowerAndHome, h1]⟩
  · by_cases h2 : v < LOW_VOLTAGE_THRESHOLD ∧ s.valvePos ≠ VALVE_HOME_POS
    · exact Or.inr (Or.inl ⟨Nat.le_of_not_lt h1, h2, by simp [checkPowerAndHome, h1, h2]⟩)
    · exact Or.inr (Or.inr ⟨Nat.le_of_not_lt h1, h2, by simp [checkPowerAndHome, h1, h2]⟩)

theorem vm_setValvePosition_spec (p : Int) (n : Nat) (s : ValveManager.State) :
    (s.initialized = false ∧ ValveManager.setValvePosition p n s = (s, none))
    ∨ (s.initialized = true ∧ usub32 n s.lastMoveMillis < MIN_MOVE_INTERVAL ∧
        ValveManager.setValvePosition p n s = (s, none))
    ∨ (s.initialized = true ∧ MIN_MOVE_INTERVAL ≤ usub32 n s.lastMoveMillis ∧
        ValveManager.setValvePosition p n s =
          ({ s with lastMoveMillis := n, valvePos := p,
                    eeprom := if p = VALVE_TOP_POS then 1 else 0 }, some p)) := by
  by_cases h0 : s.initialized = false
  · exact Or.inl ⟨h0, by simp [ValveManager.setValvePosition, h0]⟩
  · have h0' : s.initialized = true := by
      cases h : s.initialized
      · exact absurd h h0
      · rfl
    by_cases h1 : usub32 n s.lastMoveMillis < MIN_MOVE_INTERVAL
    · exact Or.inr (Or.inl ⟨h0', h1, by simp [ValveManager.setValvePosition, h0', h1]⟩)
    · exact Or.inr (Or.inr ⟨h0', Nat.le_of_not_lt h1,
        by simp [ValveManager.setValvePosition, h0', h1]⟩)

/-! ### Field-preservation facts -/

theorem setValvePosition_log_fields (p : Int) (n : Nat) (v : Int) (s : MainState) :
    (setValvePosition p n v s).1.files = s.files ∧
    (setValvePosition p n v s).1.currentLogFile = s.currentLogFile ∧
    (setValvePosition p n v s).1.lastDayOfMonth = s.lastDayOfMonth ∧
    (setValvePosition p n v s).1.lastLogTime = s.lastLogTime ∧
    (setValvePosition p n v s).1.lastCheck = s.lastCheck := by
  rcases setValvePosition_spec p n v s with ⟨_, h⟩ | ⟨_, _, h⟩ | ⟨_, _, h⟩ <;>
    simp [h]

theorem checkPowerAndHome_fields (n : Nat) (v : Int) (s : MainState) :
    (checkPowerAndHome n v s).1.files = s.files ∧
    (checkPowerAndHome n v s).1.currentLogFile = s.currentLogFile ∧
    (checkPowerAndHome n v s).1.lastDayOfMonth = s.lastDayOfMonth ∧
    (checkPowerAndHome n v s).1.lastLogTime = s.lastLogTime ∧
    (checkPowerAndHome n v s).1.eeprom = s.eeprom ∧
    (checkPowerAndHome n v s).1.lastMoveTime = s.lastMoveTime := by
  rcases checkPowerAndHome_spec n v s with ⟨_, h⟩ | ⟨_, _, h⟩ | ⟨_, _, h⟩ <;>
    simp [h]

theorem handleValveControl_log_fields (mode : ControlMode) (e : Env) (s : MainState) :
    (handleValveControl mode e s).1.files = s.files ∧
    (handleValveControl mode e s).1.currentLogFile = s.currentLogFile ∧
    (handleValveControl mode e s).1.lastDayOfMonth = s.lastDayOfMonth ∧
    (handleValveControl mode e s).1.lastLogTime = s.lastLogTime ∧
    (handleValveControl mode e s).1.lastCheck = s.lastCheck := by
  unfold handleValveControl
  dsimp only
  split
  · exact setValvePosition_log_fields _ _ _ s
  · exact ⟨rfl, rfl, rfl, rfl, rfl⟩

theorem updateLogFilename_control_fields (e : Env) (s : MainState) :
    (updateLogFilename e s).valvePos = s.valvePos ∧
    (updateLogFilename e s).lastMoveTime = s.lastMoveTime ∧
    (updateLogFilename e s).lastCheck = s.lastCheck ∧
    (updateLogFilename e s).eeprom = s.eeprom ∧
    (updateLogFilename e s).lastLogTime = s.lastLogTime := by
  unfold updateLogFilename
  split <;> exact ⟨rfl, rfl, rfl, rfl, rfl⟩

theorem logPowerData_control_fields (e : Env) (s : MainState) :
    (logPowerData e s).valvePos = s.valvePos ∧
    (logPowerData e s).lastMoveTime = s.lastMoveTime ∧
    (logPowerData e s).lastCheck = s.lastCheck ∧
    (logPowerData e s).eeprom = s.eeprom ∧
    (logPowerData e s).currentLogFile = s.currentLogFile ∧
    (logPowerData e s).lastDayOfMonth = s.lastDayOfMonth := by
  unfold logPowerData
  split <;> exact ⟨rfl, rfl, rfl, rfl, rfl, rfl⟩

theorem vm_setValvePosition_log_fields (p : Int) (n : Nat) (s : ValveManager.State) :
    (ValveManager.setValvePosition p n s).1.files = s.files ∧
    (ValveManager.setValvePosition p n s).1.currentLogFile = s.currentLogFile ∧
    (ValveManager.setValvePosition p n s).1.lastDayOfMonth = s.lastDayOfMonth ∧
    (ValveManager.setValvePosition p n s).1.lastLogTime = s.lastLogTime ∧
    (ValveManager.setValvePosition p n s).1.initialized = s.initialized := by
  rcases vm_setValvePosition_spec p n s with ⟨_, h⟩ | ⟨_, _, h⟩ | ⟨_, _, h⟩ <;>
    simp [h]

theorem vm_logPowerData_fields (e : Env) (s : ValveManager.State) :
    (ValveManager.logPowerData e s).initialized = s.initialized ∧
    (ValveManager.logPowerData e s).currentLogFile = s.currentLogFile ∧
    (ValveManager.logPowerData e s).lastDayOfMonth = s.lastDayOfMonth ∧
    (ValveManager.logPowerData e s).eeprom = s.eeprom := by
  exact ⟨rfl, rfl, rfl, rfl⟩

theorem vm_updateLogFilename_fields (e : Env) (s : ValveManager.State) :
    (ValveManager.updateLogFilename e s).initialized = s.initialized ∧
    (ValveManager.updateLogFilename e s).valvePos = s.valvePos ∧
    (ValveManager.updateLogFilename e s).lastMoveMillis = s.lastMoveMillis ∧
    (ValveManager.updateLogFilename e s).eeprom = s.eeprom ∧
    (ValveManager.updateLogFilename e s).lastLogTime = s.lastLogTime := by
  unfold ValveManager.updateLogFilename
  split <;> exact ⟨rfl, rfl, rfl, rfl, rfl⟩

/-! ### Possible target positions -/

theorem calculateExpectedValvePosition_cases (t : Nat) :
    calculateExpectedValvePosition t = VALVE_BOTTOM_POS ∨
    calculateExpectedValvePosition t = VALVE_TOP_POS := by
  unfold calculateExpectedValvePosition
  dsimp only
  split
  · exact Or.inl rfl
  · exact Or.inr rfl

theorem vm_calculateExpectedValvePosition_cases (interval t : Nat) :
    ValveManager.calculateExpectedValvePosition interval t = VALVE_BOTTOM_POS ∨
    ValveManager.calculateExpectedValvePosition interval t = VALVE_TOP_POS := by
  unfold ValveManager.calculateExpectedValvePosition
  dsimp only
  split
  · exact Or.inl rfl
  · exact Or.inr rfl

theorem targetFromCommand_cases (cmd : Option Char) :
    targetFromCommand cmd = 0 ∨ targetFromCommand cmd = VALVE_TOP_POS ∨
    targetFromCommand cmd = VALVE_BOTTOM_POS := by
  cases cmd with
  | none => exact Or.inl rfl
  | some c =>
      unfold targetFromCommand
      by_cases h1 : c = 't'
      · simp [h1]
      · by_cases h2 : c = 'b' <;> simp [h1, h2]

/-! ### EEPROM ghost-tracking facts -/

theorem lastNonHomeEnc_append (a b : List Int) (x : Nat) :
    lastNonHomeEnc (a ++ b) x = lastNonHomeEnc b (lastNonHomeEnc a x) := by
  simp [lastNonHomeEnc]

theorem setValvePosition_eeprom (p : Int) (n : Nat) (v : Int) (s : MainState)
    (hp : p ≠ VALVE_HOME_POS) :
    (setValvePosition p n v s).1.eeprom =
      lastNonHomeEnc (setValvePosition p n v s).2.toList s.eeprom := by
  rcases setValvePosition_spec p n v s with ⟨_, h⟩ | ⟨_, _, h⟩ | ⟨_, _, h⟩ <;>
    simp [h, lastNonHomeEnc, hp]

theorem checkPowerAndHome_eeprom (n : Nat) (v : Int) (s : MainState) :
    (checkPowerAndHome n v s).1.eeprom =
      lastNonHomeEnc (checkPowerAndHome n v s).2.toList s.eeprom := by
  rcases checkPowerAndHome_spec n v s with ⟨_, h⟩ | ⟨_, _, h⟩ | ⟨_, _, h⟩ <;>
    simp [h, lastNonHomeEnc]

theorem handleValveControl_eeprom (mode : ControlMode) (e : Env) (s : MainState) :
    (handleValveControl mode e s).1.eeprom =
      lastNonHomeEnc (handleValveControl mode e s).2.toList s.eeprom := by
  cases mode with
  | scheduled =>
      unfold handleValveControl
      dsimp only
      split
      · apply setValvePosition_eeprom
        rcases calculateExpectedValvePosition_cases e.t with h | h <;> rw [h] <;> decide
      · simp [lastNonHomeEnc]
  | serial =>
      unfold handleValveControl
      dsimp only
      split
      · rename_i hcond
        apply setValvePosition_eeprom
        rcases targetFromCommand_cases e.cmd with h | h | h
        · exact absurd h hcond.1
        · rw [h]; decide
        · rw [h]; decide
      · simp [lastNonHomeEnc]

theorem loop_eeprom (mode : ControlMode) (e : Env) (s : MainState) :
    (loop mode e s).1.eeprom = lastNonHomeEnc (loop mode e s).2 s.eeprom := by
  unfold loop
  dsimp only
  rw [(logPowerData_control_fields _ _).2.2.2.1,
      (updateLogFilename_control_fields _ _).2.2.2.1,
      lastNonHomeEnc_append, ← checkPowerAndHome_eeprom]
  exact handleValveControl_eeprom mode e _

theorem runLoop_eeprom (mode : ControlMode) (es : List Env) (s : MainState) :
    (runLoop mode es s).1.eeprom = lastNonHomeEnc (runLoop mode es s).2 s.eeprom := by
  induction es generalizing s with
  | nil => rfl
  | cons e rest ih =>
      unfold runLoop
      dsimp only
      rw [lastNonHomeEnc_append, ← loop_eeprom]
      exact ih _

/-! ### Storage invariants: main.cpp machine -/

theorem updateLogFilename_post (e : Env) (s : MainState) (h : mainInv s) :
    goodFiles (updateLogFilename e s).files = true ∧
    (updateLogFilename e s).currentLogFile ≠ "" ∧
    existsFile (updateLogFilename e s).currentLogFile (updateLogFilename e s).files = true := by
  obtain ⟨hg, hcur⟩ := h
  unfold updateLogFilename
  dsimp only
  split
  · by_cases hex : existsFile (logFilename e.year e.month e.dayOfMonth) s.files = true
    · simp only [hex, if_true]
      refine ⟨hg, logFilename_ne_empty _ _ _, ?_⟩
      simp [hex]
    · simp only [hex, if_false, Bool.false_eq_true]
      exact ⟨goodFiles_create _ hg, logFilename_ne_empty _ _ _, existsFile_create _ _⟩
  · rename_i hnot
    push_neg at hnot
    rcases hcur with he | hex
    · exact absurd he hnot.1
    · exact ⟨hg, hnot.1, hex⟩

theorem logPowerData_inv (e : Env) (s : MainState)
    (hg : goodFiles s.files = true)
    (hex : existsFile s.currentLogFile s.files = true) :
    goodFiles (logPowerData e s).files = true ∧
    (logPowerData e s).currentLogFile = s.currentLogFile ∧
    existsFile (logPowerData e s).currentLogFile (logPowerData e s).files = true := by
  unfold logPowerData
  dsimp only
  split
  · exact ⟨hg, rfl, hex⟩
  · exact ⟨goodFiles_appendLine hex hg (logLine_ne_headerLine _ _ _ _), rfl,
      existsFile_appendLine_mono _ _ _ _ hex⟩

theorem loop_inv (mode : ControlMode) (e : Env) (s : MainState) (h : mainInv s) :
    mainInv (loop mode e s).1 := by
  unfold loop
  dsimp only
  have h1 : mainInv (checkPowerAndHome e.millisA e.voltA s).1 := by
    obtain ⟨f1, f2, _⟩ := checkPowerAndHome_fields e.millisA e.voltA s
    unfold mainInv
    rw [f1, f2]
    exact h
  have h2 : mainInv (handleValveControl mode e (checkPowerAndHome e.millisA e.voltA s).1).1 := by
    obtain ⟨f1, f2, _⟩ := handleValveControl_log_fields mode e _
    unfold mainInv
    rw [f1, f2]
    exact h1
  obtain ⟨g1, _, g3⟩ := updateLogFilename_post e _ h2
  obtain ⟨k1, _, k3⟩ := logPowerData_inv e _ g1 g3
  exact ⟨k1, Or.inr k3⟩

theorem initializeSD_inv (e : Env) (s : MainState) (h : mainInv s) :
    mainInv (initializeSD e s) := by
  unfold initializeSD
  dsimp only
  obtain ⟨g1, _, g3⟩ := updateLogFilename_post e s h
  exact ⟨goodFiles_appendLine g3 g1 (rebootLine_ne_headerLine _), Or.inr
    (existsFile_appendLine_mono _ _ _ _ g3)⟩

theorem setup_inv (mode : ControlMode) (e : Env) (s : MainState) (h : mainInv s) :
    mainInv (setup mode e s).1 := by
  have hsd := initializeSD_inv e s h
  unfold setup
  cases mode with
  | scheduled => exact hsd
  | serial =>
      dsimp only
      obtain ⟨f1, f2, _⟩ := setValvePosition_log_fields
        (if (initializeSD e s).eeprom ≠ 0 then VALVE_TOP_POS else VALVE_BOTTOM_POS)
        e.millisB e.voltB (initializeSD e s)
      unfold mainInv
      rw [f1, f2]
      exact hsd

theorem runLoop_inv (mode : ControlMode) (es : List Env) (s : MainState) (h : mainInv s) :
    mainInv (runLoop mode es s).1 := by
  induction es generalizing s with
  | nil => exact h
  | cons e rest ih =>
      unfold runLoop
      dsimp only
      exact ih _ (loop_inv mode e s h)

/-! ### Storage invariants: ValveManager machine -/

theorem vm_updateLogFilename_post (e : Env) (s : ValveManager.State)
    (hg : goodFiles s.files = true)
    (hcur : s.currentLogFile = "" ∨ existsFile s.currentLogFile s.files = true) :
    goodFiles (ValveManager.updateLogFilename e s).files = true ∧
    (ValveManager.updateLogFilename e s).currentLogFile ≠ "" ∧
    existsFile (ValveManager.updateLogFilename e s).currentLogFile
      (ValveManager.updateLogFilename e s).files = true := by
  unfold ValveManager.updateLogFilename
  dsimp only
  split
  · by_cases hex : existsFile (logFilename e.year e.month e.dayOfMonth) s.files = true
    · simp only [hex, if_true]
      refine ⟨hg, logFilename_ne_empty _ _ _, ?_⟩
      simp [hex]
    · simp only [hex, if_false, Bool.false_eq_true]
      exact ⟨goodFiles_create _ hg, logFilename_ne_empty _ _ _, existsFile_create _ _⟩
  · rename_i hnot
    push_neg at hnot
    rcases hcur with he | hex
    · exact absurd he hnot.1
    · exact ⟨hg, hnot.1, hex⟩

theorem vm_handleValveControl_inv (cfg : Config) (e : Env) (s : ValveManager.State)
    (hg : goodFiles s.files = true)
    (hex : existsFile s.currentLogFile s.files = true) :
    goodFiles (ValveManager.handleValveControl cfg e s).1.files = true ∧
    (ValveManager.handleValveControl cfg e s).1.currentLogFile = s.currentLogFile ∧
    existsFile (ValveManager.handleValveControl cfg e s).1.currentLogFile
      (ValveManager.handleValveControl cfg e s).1.files = true ∧
    (ValveManager.handleValveControl cfg e s).1.initialized = s.initialized := by
  have hmove : ∀ t : Int,
      goodFiles (ValveManager.setValvePosition t e.millisB s).1.files = true ∧
      (ValveManager.setValvePosition t e.millisB s).1.currentLogFile = s.currentLogFile ∧
      existsFile (ValveManager.setValvePosition t e.millisB s).1.currentLogFile
        (ValveManager.setValvePosition t e.millisB s).1.files = true ∧
      (ValveManager.setValvePosition t e.millisB s).1.initialized = s.initialized := by
    intro t
    obtain ⟨f1, f2, _, _, f5⟩ := vm_setValvePosition_log_fields t e.millisB s
    rw [f1, f2, f5]
    exact ⟨hg, rfl, hex, rfl⟩
  have hlog : ∀ r : ValveManager.State × Option Int,
      goodFiles r.1.files = true →
      r.1.currentLogFile = s.currentLogFile →
      existsFile r.1.currentLogFile r.1.files = true →
      r.1.initialized = s.initialized →
      goodFiles ({ ValveManager.logPowerData e r.1 with
          lastLogTime := e.t } : ValveManager.State).files = true ∧
      ({ ValveManager.logPowerData e r.1 with
          lastLogTime := e.t } : ValveManager.State).currentLogFile = s.currentLogFile ∧
      existsFile ({ ValveManager.logPowerData e r.1 with
          lastLogTime := e.t } : ValveManager.State).currentLogFile
        ({ ValveManager.logPowerData e r.1 with
          lastLogTime := e.t } : ValveManager.State).files = true ∧
      ({ ValveManager.logPowerData e r.1 with
          lastLogTime := e.t } : ValveManager.State).initialized = s.initialized := by
    intro r hg2 hc2 he2 hi2
    unfold ValveManager.logPowerData
    dsimp only
    refine ⟨goodFiles_appendLine he2 hg2 (logLine_ne_headerLine _ _ _ _), hc2, ?_, hi2⟩
    rw [hc2] at he2 ⊢
    exact existsFile_appendLine_mono _ _ _ _ he2
  unfold ValveManager.handleValveControl
  dsimp only
  repeat' split
  all_goals first
    | exact ⟨hg, rfl, hex, rfl⟩
    | exact hmove _
    | exact hlog _ (hmove _).1 (hmove _).2.1 (hmove _).2.2.1 (hmove _).2.2.2
    | exact hlog (s, none) hg rfl hex rfl

theorem vm_initialized_true_of_not_false (s : ValveManager.State)
    (h : ¬ s.initialized = false) : s.initialized = true := by
  cases hi : s.initialized
  · exact absurd hi h
  · rfl

theorem vm_update_inv (cfg : Config) (e : Env) (s : ValveManager.State)
    (h : vmInv s) : vmInv (ValveManager.update cfg e s).1 := by
  unfold ValveManager.update
  dsimp only
  split
  · exact h
  · rename_i hni
    have hinit := vm_initialized_true_of_not_false s hni
    have hne : s.currentLogFile ≠ "" := h.2.2 hinit
    have hex : existsFile s.currentLogFile s.files = true := h.2.1.resolve_left hne
    obtain ⟨g1, g2, g3, g4⟩ := vm_handleValveControl_inv cfg e s h.1 hex
    obtain ⟨k1, k2, k3⟩ := vm_updateLogFilename_post e _ g1 (Or.inr g3)
    exact ⟨k1, Or.inr k3, fun _ => k2⟩

theorem vm_logData_inv (e : Env) (s : ValveManager.State)
    (h : vmInv s) : vmInv (ValveManager.logData e s) := by
  unfold ValveManager.logData
  split
  · exact h
  · rename_i hni
    have hinit := vm_initialized_true_of_not_false s hni
    have hne : s.currentLogFile ≠ "" := h.2.2 hinit
    have hex : existsFile s.currentLogFile s.files = true := h.2.1.resolve_left hne
    unfold ValveManager.logPowerData
    dsimp only
    refine ⟨goodFiles_appendLine hex h.1 (logLine_ne_headerLine _ _ _ _),
      Or.inr (existsFile_appendLine_mono _ _ _ _ hex), fun _ => hne⟩

theorem vm_setValvePosition_inv (p : Int) (n : Nat) (s : ValveManager.State)
    (h : vmInv s) : vmInv (ValveManager.setValvePosition p n s).1 := by
  obtain ⟨f1, f2, _, _, f5⟩ := vm_setValvePosition_log_fields p n s
  unfold vmInv
  rw [f1, f2, f5]
  exact h

theorem vm_begin_tail_inv (cfg : Config) (e : Env) (s2 : ValveManager.State)
    (hg : goodFiles s2.files = true)
    (hne : s2.currentLogFile ≠ "")
    (hex : existsFile s2.currentLogFile s2.files = true) :
    vmInv ({ (if cfg.serialControlEnabled = true then
        ValveManager.setValvePosition
          (if s2.eeprom ≠ 0 then VALVE_TOP_POS else VALVE_BOTTOM_POS) e.millisB s2
      else (s2, none)).1 with initialized := true } : ValveManager.State) := by
  split
  · obtain ⟨f1, f2, _, _, _⟩ := vm_setValvePosition_log_fields
      (if s2.eeprom ≠ 0 then VALVE_TOP_POS else VALVE_BOTTOM_POS) e.millisB s2
    refine ⟨?_, Or.inr ?_, fun _ => ?_⟩
    · show goodFiles (ValveManager.setValvePosition _ e.millisB s2).1.files = true
      rw [f1]; exact hg
    · show existsFile (ValveManager.setValvePosition _ e.millisB s2).1.currentLogFile
        (ValveManager.setValvePosition _ e.millisB s2).1.files = true
      rw [f1, f2]; exact hex
    · show (ValveManager.setValvePosition _ e.millisB s2).1.currentLogFile ≠ ""
      rw [f2]; exact hne
  · exact ⟨hg, Or.inr hex, fun _ => hne⟩

theorem vm_begin_inv (cfg : Config) (cs sf sd : Bool) (e : Env) (s : ValveManager.State)
    (h : vmInv s) : vmInv (ValveManager.begin cfg cs sf sd e s).1 := by
  unfold ValveManager.begin
  dsimp only
  split
  · exact h
  split
  · exact h
  split
  · exact h
  obtain ⟨g1, g2, g3⟩ := vm_updateLogFilename_post e s h.1 h.2.1
  exact vm_begin_tail_inv cfg e _
    (goodFiles_appendLine g3 g1 (rebootLine_ne_headerLine _)) g2
    (existsFile_appendLine_mono _ _ _ _ g3)

theorem vm_runOps_inv (cfg : Config) (ops : List ValveManager.Op) (s : ValveManager.State)
    (h : vmInv s) : vmInv (ValveManager.runOps cfg ops s).1 := by
  induction ops generalizing s with
  | nil => exact h
  | cons op rest ih =>
      unfold ValveManager.runOps
      cases op with
      | update e => exact ih _ (vm_update_inv cfg e s h)
      | logData e => exact ih _ (vm_logData_inv e s h)
      | setValvePosition p n => exact ih _ (vm_setValvePosition_inv p n s h)

theorem vm_runOps_uninit (cfg : Config) (ops : List ValveManager.Op)
    (s : ValveManager.State) (h : s.initialized = false) :
    ValveManager.runOps cfg ops s = (s, []) := by
  induction ops with
  | nil => rfl
  | cons op rest ih =>
      unfold ValveManager.runOps
      cases op with
      | update e => simp [ValveManager.update, h, ih]
      | logData e => simp [ValveManager.logData, h, ih]
      | setValvePosition p n => simp [ValveManager.setValvePosition, h, ih]

/-! ### Rate-limiter spacing over direct-call traces -/

theorem runSet_spaced (calls : List (Int × Nat × Int)) (s : MainState) :
    spacedFrom s.lastMoveTime (runSet calls s).2 := by
  induction calls generalizing s with
  | nil => trivial
  | cons c rest ih =>
      unfold runSet
      dsimp only
      rcases setValvePosition_spec c.1 c.2.1 c.2.2 s with ⟨h1, h2⟩ | ⟨h1, h2, h3⟩ | ⟨h1, h2, h3⟩
      · rw [h2]
        simpa using ih s
      · rw [h3]
        simp only [Option.isSome_some, if_true, List.singleton_append]
        exact ⟨h1, ih { s with lastMoveTime := c.2.1, valvePos := VALVE_HOME_POS }⟩
      · rw [h3]
        simp only [Option.isSome_some, if_true, List.singleton_append]
        exact ⟨h1, ih { s with lastMoveTime := c.2.1, valvePos := c.1, eeprom := (if c.1 = VALVE_TOP_POS then 1 else 0) }⟩

theorem initializeSD_control_fields (e : Env) (s : MainState) :
    (initializeSD e s).valvePos = s.valvePos ∧
    (initializeSD e s).lastMoveTime = s.lastMoveTime ∧
    (initializeSD e s).eeprom = s.eeprom := by
  unfold initializeSD
  dsimp only
  obtain ⟨f1, f2, _, f4, _⟩ := updateLogFilename_control_fields e s
  exact ⟨f1, f2, f4⟩

/-! ### Claim theorems -/

/-- C1 counterexample: `ValveManager::setValvePosition` is a path that issues
a move (here: an initialized manager, rate gate satisfied, commanded to Top)
yet consults no voltage reading at all, so with the ambient bus voltage at
9500 mV — below the 10000 mV threshold — the effective position issued is
still `Top`, not `Home`: the claimed interlock does not hold on every move
path. -/
theorem C1_interlock_missing_in_valvemanager_cex :
    (ValveManager.setValvePosition VALVE_TOP_POS 2000
      { ValveManager.initState 1205 0 with initialized := true }).2 = some VALVE_TOP_POS ∧
    (9500 : Int) < LOW_VOLTAGE_THRESHOLD ∧ VALVE_TOP_POS ≠ VALVE_HOME_POS := by
  exact ⟨rfl, by decide, by decide⟩

/-- C1 amended: in main.cpp the interlock rule holds on both move paths —
a rate-gate-accepted `setValvePosition` issues `Home` exactly when
`voltage < threshold` and the requested position otherwise, and
`checkPowerAndHome` issues `Home` when due, under-voltage and away from home,
and issues nothing when the voltage is at or above threshold — but
`ValveManager::setValvePosition` performs no voltage check and issues the
requested position regardless of any voltage reading. -/
theorem C1_interlock_amended :
    (∀ (p : Int) (n : Nat) (v : Int) (s : MainState),
      MIN_MOVE_INTERVAL ≤ usub32 n s.lastMoveTime →
      (setValvePosition p n v s).2 =
        some (if v < LOW_VOLTAGE_THRESHOLD then VALVE_HOME_POS else p))
    ∧ (∀ (n : Nat) (v : Int) (s : MainState),
        POWER_CHECK_INTERVAL ≤ usub32 n s.lastCheck →
        v < LOW_VOLTAGE_THRESHOLD → s.valvePos ≠ VALVE_HOME_POS →
        (checkPowerAndHome n v s).2 = some VALVE_HOME_POS ∧
        (checkPowerAndHome n v s).1.valvePos = VALVE_HOME_POS)
    ∧ (∀ (n : Nat) (v : Int) (s : MainState),
        LOW_VOLTAGE_THRESHOLD ≤ v →
        (checkPowerAndHome n v s).2 = none ∧
        (checkPowerAndHome n v s).1.valvePos = s.valvePos)
    ∧ (∀ (p : Int) (n : Nat) (s : ValveManager.State),
        s.initialized = true →
        MIN_MOVE_INTERVAL ≤ usub32 n s.lastMoveMillis →
        (ValveManager.setValvePosition p n s).2 = some p) := by
  refine ⟨?_, ?_, ?_, ?_⟩
  · intro p n v s hgate
    rcases setValvePosition_spec p n v s with ⟨h1, _⟩ | ⟨_, h2, h3⟩ | ⟨_, h2, h3⟩
    · omega
    · rw [h3]
      simp [h2]
    · rw [h3]
      simp [Int.not_lt.mpr h2]
  · intro n v s hgate hv hp
    rcases checkPowerAndHome_spec n v s with ⟨h1, _⟩ | ⟨_, _, h3⟩ | ⟨_, h2, _⟩
    · omega
    · rw [h3]
      exact ⟨rfl, rfl⟩
    · exact absurd ⟨hv, hp⟩ h2
  · intro n v s hv
    rcases checkPowerAndHome_spec n v s with ⟨_, h2⟩ | ⟨_, h2, _⟩ | ⟨_, _, h3⟩
    · rw [h2]
      exact ⟨rfl, rfl⟩
    · exact absurd h2.1 (Int.not_lt.mpr hv)
    · rw [h3]
      exact ⟨rfl, rfl⟩
  · intro p n s hinit hgate
    rcases vm_setValvePosition_spec p n s with ⟨h0, _⟩ | ⟨_, h1, _⟩ | ⟨_, _, h3⟩
    · rw [hinit] at h0
      exact Bool.noConfusion h0
    · omega
    · rw [h3]

/-- Witness for C1 amended, discharging each hypothesis at concrete inputs:
an accepted main.cpp move at 9500 mV goes home, an accepted move at
12000 mV goes where requested, a due power check at 9500 mV homes the valve
while one at 12000 mV does nothing, and an accepted ValveManager move issues
the requested position. -/
theorem C1_interlock_amended_witness :
    (setValvePosition VALVE_TOP_POS 2000 9500 (mainInit 1205 0)).2 =
      some (if (9500 : Int) < LOW_VOLTAGE_THRESHOLD then VALVE_HOME_POS else VALVE_TOP_POS) ∧
    ((checkPowerAndHome 50 9000 (mainInit 1795 0)).2 = some VALVE_HOME_POS ∧
      (checkPowerAndHome 50 9000 (mainInit 1795 0)).1.valvePos = VALVE_HOME_POS) ∧
    ((checkPowerAndHome 50 12000 (mainInit 1795 0)).2 = none ∧
      (checkPowerAndHome 50 12000 (mainInit 1795 0)).1.valvePos = (mainInit 1795 0).valvePos) ∧
    (ValveManager.setValvePosition VALVE_BOTTOM_POS 2000
      { ValveManager.initState 1795 1 with initialized := true }).2 = some VALVE_BOTTOM_POS := by
  refine ⟨C1_interlock_amended.1 VALVE_TOP_POS 2000 9500 (mainInit 1205 0) (by decide),
    C1_interlock_amended.2.1 50 9000 (mainInit 1795 0) (by decide) (by decide) (by decide),
    C1_interlock_amended.2.2.1 50 12000 (mainInit 1795 0) (by decide),
    C1_interlock_amended.2.2.2 VALVE_BOTTOM_POS 2000
      { ValveManager.initState 1795 1 with initialized := true } rfl (by decide)⟩

/-- C2 counterexample: `ValveManager::setValvePosition`, called with
`VALVE_HOME_POS` on an initialized manager whose persistent byte records Top
(1), issues the move to Home and overwrites EEPROM byte 0 with 0 — a move to
Home does change the stored value in that variant. -/
theorem C2_persistence_cex :
    (ValveManager.setValvePosition VALVE_HOME_POS 2000
      { ValveManager.initState 1795 1 with initialized := true }).2 = some VALVE_HOME_POS ∧
    (ValveManager.setValvePosition VALVE_HOME_POS 2000
      { ValveManager.initState 1795 1 with initialized := true }).1.eeprom = 0 ∧
    ({ ValveManager.initState 1795 1 with initialized := true } : ValveManager.State).eeprom = 1 := by
  exact ⟨rfl, rfl, rfl⟩

/-- C2 amended: over any sequence of main.cpp loop ticks (either control
mode, any environments, any starting state) EEPROM byte 0 equals the 1/0
encoding (1 = Top) of the most recent servo write that was not
`VALVE_HOME_POS`, unchanged when no such write happened — interlock moves to
Home never touch the store on the tick paths; however, a direct
`ValveManager::setValvePosition(VALVE_HOME_POS)` call overwrites the store
with the Bottom encoding (see the counterexample). -/
theorem C2_persistence_amended :
    ∀ (mode : ControlMode) (es : List Env) (s : MainState),
      (runLoop mode es s).1.eeprom = lastNonHomeEnc (runLoop mode es s).2 s.eeprom := by
  intro mode es s
  exact runLoop_eeprom mode es s

/-- C3 counterexample: starting from boot state, a move to Top accepted at
millis 2000 is followed by a first interlock trip at 2010; a second move to
Top is accepted at millis 4100 and at millis 4150 — only 50 ms later, far
below `MIN_MOVE_INTERVAL` = 2000 — `checkPowerAndHome` issues another (the
second, hence not first-after-boot) interlock actuation to Home: the rate
limiter does not bound interlock actuations after the first. -/
theorem C3_rate_limit_cex :
    let s1 := setValvePosition VALVE_TOP_POS 2000 12000 (mainInit 1205 0)
    let s2 := checkPowerAndHome 2010 9000 s1.1
    let s3 := setValvePosition VALVE_TOP_POS 4100 12000 s2.1
    let s4 := checkPowerAndHome 4150 9000 s3.1
    s1.2 = some VALVE_TOP_POS ∧ s2.2 = some VALVE_HOME_POS ∧
    s3.2 = some VALVE_TOP_POS ∧ s4.2 = some VALVE_HOME_POS ∧
    usub32 4150 4100 < MIN_MOVE_INTERVAL := by
  exact ⟨rfl, rfl, rfl, rfl, by decide⟩

/-- C3 amended: moves issued through main.cpp `setValvePosition` are
rate-limited with wrap-safe unsigned subtraction — over any direct-call
trace, consecutive accepted actuations are at least `MIN_MOVE_INTERVAL`
apart, an attempt under the interval is rejected leaving the state
unchanged, and an attempt at or beyond it is accepted — but interlock
actuations through `checkPowerAndHome` are never rate-limited (any due trip
with low voltage away from home fires, not only the first after boot) and do
not update the rate-limiter timestamp. -/
theorem C3_rate_limit_amended :
    (∀ (calls : List (Int × Nat × Int)) (s : MainState),
      spacedFrom s.lastMoveTime (runSet calls s).2)
    ∧ (∀ (p : Int) (n : Nat) (v : Int) (s : MainState),
        usub32 n s.lastMoveTime < MIN_MOVE_INTERVAL →
        setValvePosition p n v s = (s, none))
    ∧ (∀ (p : Int) (n : Nat) (v : Int) (s : MainState),
        MIN_MOVE_INTERVAL ≤ usub32 n s.lastMoveTime →
        ((setValvePosition p n v s).2).isSome = true)
    ∧ (∀ (n : Nat) (v : Int) (s : MainState),
        POWER_CHECK_INTERVAL ≤ usub32 n s.lastCheck →
        v < LOW_VOLTAGE_THRESHOLD → s.valvePos ≠ VALVE_HOME_POS →
        (checkPowerAndHome n v s).2 = some VALVE_HOME_POS ∧
        (checkPowerAndHome n v s).1.lastMoveTime = s.lastMoveTime) := by
  refine ⟨runSet_spaced, ?_, ?_, ?_⟩
  · intro p n v s hgate
    rcases setValvePosition_spec p n v s with ⟨_, h2⟩ | ⟨h1, _, _⟩ | ⟨h1, _, _⟩
    · exact h2
    · omega
    · omega
  · intro p n v s hgate
    rcases setValvePosition_spec p n v s with ⟨h1, _⟩ | ⟨_, _, h3⟩ | ⟨_, _, h3⟩
    · omega
    · rw [h3]
      rfl
    · rw [h3]
      rfl
  · intro n v s hdue hv hp
    rcases checkPowerAndHome_spec n v s with ⟨h1, _⟩ | ⟨_, _, h3⟩ | ⟨_, h2, _⟩
    · omega
    · rw [h3]
      exact ⟨rfl, rfl⟩
    · exact absurd ⟨hv, hp⟩ h2

/-- Witness for C3 amended at concrete inputs: an attempt 100 ms after boot
is rejected with the state unchanged, an attempt at exactly 2000 ms is
accepted, and a due power check at 9000 mV with the valve at Top issues Home
without touching the rate-limiter timestamp. -/
theorem C3_rate_limit_amended_witness :
    setValvePosition VALVE_TOP_POS 100 12000 (mainInit 1205 0) = (mainInit 1205 0, none) ∧
    ((setValvePosition VALVE_TOP_POS 2000 12000 (mainInit 1205 0)).2).isSome = true ∧
    ((checkPowerAndHome 50 9000 (mainInit 1795 7)).2 = some VALVE_HOME_POS ∧
      (checkPowerAndHome 50 9000 (mainInit 1795 7)).1.lastMoveTime =
        (mainInit 1795 7).lastMoveTime) := by
  refine ⟨C3_rate_limit_amended.2.1 VALVE_TOP_POS 100 12000 (mainInit 1205 0) (by decide),
    C3_rate_limit_amended.2.2.1 VALVE_TOP_POS 2000 12000 (mainInit 1205 0) (by decide),
    C3_rate_limit_amended.2.2.2 50 9000 (mainInit 1795 7) (by decide) (by decide) (by decide)⟩

/-- C4: for every time `t` and interval > 0 the scheduler computes
`elapsed = minute-of-hour * 60 + second-of-minute`, `slot = elapsed /
interval` by integer division, Bottom when the slot is even and Top when it
is odd — the ValveManager scheduler (parametric interval) and the main.cpp
scheduler (fixed 450 s) both coincide with the spec formula — and with a
30 s interval, 00:00:15 yields Bottom, 00:00:45 yields Top and 00:01:05
yields Bottom. -/
theorem C4_scheduler_formula :
    (∀ (interval t : Nat), 0 < interval →
      ValveManager.calculateExpectedValvePosition interval t =
        nextScheduledPositionSpec (minuteOfT t) (secondOfT t) interval)
    ∧ (∀ t : Nat,
      calculateExpectedValvePosition t =
        nextScheduledPositionSpec (minuteOfT t) (secondOfT t) VALVE_CHANGE_INTERVAL)
    ∧ ValveManager.calculateExpectedValvePosition 30 15 = VALVE_BOTTOM_POS
    ∧ ValveManager.calculateExpectedValvePosition 30 45 = VALVE_TOP_POS
    ∧ ValveManager.calculateExpectedValvePosition 30 65 = VALVE_BOTTOM_POS := by
  exact ⟨fun interval t _ => rfl, fun t => rfl, by decide, by decide, by decide⟩

/-- Witness for C4 at interval 30 (> 0) and t = 15 s after the hour. -/
theorem C4_scheduler_formula_witness :
    ValveManager.calculateExpectedValvePosition 30 15 =
      nextScheduledPositionSpec (minuteOfT 15) (secondOfT 15) 30 :=
  C4_scheduler_formula.1 30 15 (by decide)

/-- C5 counterexample: main.cpp's `initializeSystem` proceeds when the RTC
cannot be synced (the sync status is only printed), and the subsequent
control loop still issues scheduled valve moves: one tick from boot state at
00:08:20 with healthy power commands Top. -/
theorem C5_clock_failure_cex :
    initializeSystem false true = InitResult.proceeds ∧
    (loop ControlMode.scheduled (mkEnv 500 2025 1 1 5000 12000 5000 12000 12000 100 none)
      (mainInit 1205 0)).2 = [VALVE_TOP_POS] := by
  exact ⟨rfl, rfl⟩

/-- C5 amended: in the ValveManager library a failed RTC sync makes `begin`
fail, leaving the instance uninitialized and unchanged, and an uninitialized
instance never issues any actuation over any operation sequence; main.cpp,
however, proceeds past initialization on clock failure (only a missing power
sensor halts it). -/
theorem C5_clock_failure_amended :
    (∀ (cfg : Config) (sf sd : Bool) (e : Env) (v0 : Int) (e0 : Nat),
      ValveManager.begin cfg false sf sd e (ValveManager.initState v0 e0) =
        (ValveManager.initState v0 e0, none))
    ∧ (∀ (cfg : Config) (ops : List ValveManager.Op) (s : ValveManager.State),
        s.initialized = false → ValveManager.runOps cfg ops s = (s, []))
    ∧ initializeSystem false true = InitResult.proceeds := by
  exact ⟨fun cfg sf sd e v0 e0 => rfl,
    fun cfg ops s h => vm_runOps_uninit cfg ops s h, rfl⟩

/-- Witness for C5 amended: a fresh (hence uninitialized) manager runs a
command, an update and a log request and stays exactly as constructed with
no actuations. -/
theorem C5_clock_failure_amended_witness :
    ValveManager.runOps (Config.mk false 30)
      [ValveManager.Op.setValvePosition 1795 5000,
        ValveManager.Op.logData (mkEnv 20 2025 1 1 0 0 0 0 0 0 none)]
      (ValveManager.initState 1205 0) = (ValveManager.initState 1205 0, []) :=
  C5_clock_failure_amended.2.1 (Config.mk false 30) _ (ValveManager.initState 1205 0) rfl

/-- C6 counterexample: a due `checkPowerAndHome` at millis 2050 with 9000 mV
and the valve at Top writes `VALVE_HOME_POS` to the actuator yet leaves the
rate-limiter timestamp at its old value 2000 — a path that issues an
actuation without updating the timestamp. -/
theorem C6_timestamp_iff_cex :
    (checkPowerAndHome 2050 9000 { mainInit 1795 1 with lastMoveTime := 2000 }).2 =
      some VALVE_HOME_POS ∧
    (checkPowerAndHome 2050 9000 { mainInit 1795 1 with lastMoveTime := 2000 }).1.lastMoveTime =
      2000 := by
  exact ⟨rfl, rfl⟩

/-- C6 amended: within `setValvePosition` (both main.cpp and ValveManager)
the timestamp is updated exactly when an actuation is issued — every call
either issues a servo write and stamps the call's millis, or leaves the
state untouched and issues nothing — but `checkPowerAndHome` never updates
the timestamp, including on the path where it issues the Home actuation. -/
theorem C6_timestamp_iff_amended :
    (∀ (p : Int) (n : Nat) (v : Int) (s : MainState),
      ((setValvePosition p n v s).2.isSome = true ∧
        (setValvePosition p n v s).1.lastMoveTime = n)
      ∨ setValvePosition p n v s = (s, none))
    ∧ (∀ (p : Int) (n : Nat) (s : ValveManager.State),
      ((ValveManager.setValvePosition p n s).2.isSome = true ∧
        (ValveManager.setValvePosition p n s).1.lastMoveMillis = n)
      ∨ ValveManager.setValvePosition p n s = (s, none))
    ∧ (∀ (n : Nat) (v : Int) (s : MainState),
        (checkPowerAndHome n v s).1.lastMoveTime = s.lastMoveTime) := by
  refine ⟨?_, ?_, ?_⟩
  · intro p n v s
    rcases setValvePosition_spec p n v s with ⟨_, h2⟩ | ⟨_, _, h3⟩ | ⟨_, _, h3⟩
    · exact Or.inr h2
    · rw [h3]
      exact Or.inl ⟨rfl, rfl⟩
    · rw [h3]
      exact Or.inl ⟨rfl, rfl⟩
  · intro p n s
    rcases vm_setValvePosition_spec p n s with ⟨_, h2⟩ | ⟨_, _, h2⟩ | ⟨_, _, h3⟩
    · exact Or.inr h2
    · exact Or.inr h2
    · rw [h3]
      exact Or.inl ⟨rfl, rfl⟩
  · intro n v s
    exact (checkPowerAndHome_fields n v s).2.2.2.2.2

/-- C7 counterexample: with serial control enabled and EEPROM byte 0
recording Top, a successful `ValveManager::begin` issues no actuation and
leaves the valve where it was — the seeding call runs before `_initialized`
is set and is therefore a no-op — so the stored position is not commanded
at startup. -/
theorem C7_seeding_cex :
    let r := ValveManager.begin (Config.mk true 30) true true true
      (mkEnv 0 2025 1 2 0 0 5000 12000 0 0 none) (ValveManager.initState 1205 1)
    r.2 = none ∧ r.1.valvePos = 1205 ∧ r.1.initialized = true := by
  exact ⟨rfl, rfl, rfl⟩

/-- C7 amended: seeding from the persistent store is attempted only when
serial control is enabled, not in every control mode.  In ValveManager the
attempt is ineffective in any mode — `begin` issues no actuation and leaves
the valve position unchanged, because the seed call precedes
`_initialized = true`.  In main.cpp serial builds the seed does fire: with
the rate gate satisfied and healthy voltage, `setup` commands Top when the
stored byte is nonzero and Bottom when it is zero; scheduled builds issue no
seed. -/
theorem C7_seeding_amended :
    (∀ (n : Nat) (cs sf sd : Bool) (e : Env) (v0 : Int) (e0 : Nat),
      (ValveManager.begin (Config.mk false n) cs sf sd e (ValveManager.initState v0 e0)).2 =
        none)
    ∧ (∀ (n : Nat) (cs sf sd : Bool) (e : Env) (v0 : Int) (e0 : Nat),
      (ValveManager.begin (Config.mk true n) cs sf sd e (ValveManager.initState v0 e0)).2 =
        none ∧
      (ValveManager.begin (Config.mk true n) cs sf sd e
        (ValveManager.initState v0 e0)).1.valvePos = v0)
    ∧ (∀ (e : Env) (s : MainState),
        MIN_MOVE_INTERVAL ≤ usub32 e.millisB s.lastMoveTime →
        LOW_VOLTAGE_THRESHOLD ≤ e.voltB →
        (setup ControlMode.serial e s).2 =
          some (if s.eeprom ≠ 0 then VALVE_TOP_POS else VALVE_BOTTOM_POS))
    ∧ (∀ (e : Env) (s : MainState), (setup ControlMode.scheduled e s).2 = none) := by
  refine ⟨?_, ?_, ?_, fun e s => rfl⟩
  · intro n cs sf sd e v0 e0
    unfold ValveManager.begin
    dsimp only
    split
    · rfl
    split
    · rfl
    split
    · rfl
    · rfl
  · intro n cs sf sd e v0 e0
    unfold ValveManager.begin
    dsimp only
    split
    · exact ⟨rfl, rfl⟩
    split
    · exact ⟨rfl, rfl⟩
    split
    · exact ⟨rfl, rfl⟩
    · exact ⟨rfl, rfl⟩
  · intro e s hgate hv
    obtain ⟨_, f2, f3⟩ := initializeSD_control_fields e s
    rcases setValvePosition_spec
      (if (initializeSD e s).eeprom ≠ 0 then VALVE_TOP_POS else VALVE_BOTTOM_POS)
      e.millisB e.voltB (initializeSD e s) with ⟨h1, _⟩ | ⟨_, h2, _⟩ | ⟨_, _, h3⟩
    · rw [f2] at h1
      omega
    · exact absurd h2 (Int.not_lt.mpr hv)
    · show (setValvePosition _ e.millisB e.voltB (initializeSD e s)).2 = _
      rw [h3, f3]

/-- Witness for C7 amended: in a main.cpp serial build, `setup` at millis
5000 with 12000 mV seeds the position decoded from a stored byte of 1,
namely Top. -/
theorem C7_seeding_amended_witness :
    (setup ControlMode.serial (mkEnv 0 2025 1 1 0 0 5000 12000 0 0 none)
      (mainInit 1205 1)).2 =
      some (if (mainInit 1205 1).eeprom ≠ 0 then VALVE_TOP_POS else VALVE_BOTTOM_POS) :=
  C7_seeding_amended.2.2.1 (mkEnv 0 2025 1 1 0 0 5000 12000 0 0 none)
    (mainInit 1205 1) (by decide) (by decide)

/-- C8: every record line is the comma-separated `timestamp,voltage_mv,
current_ma,position` string with the servo's native microsecond readback as
the position value (shown bit-for-bit on a concrete record, with the exact
header text and the dated segment file name), and on every reachable card
state — ValveManager: any `begin` followed by any sequence of public
operations from a fresh card; main.cpp: `setup` followed by any sequence of
loop ticks — every log segment contains exactly one header line and it is
the segment's first line. -/
theorem C8_telemetry_format :
    (∀ (cfg : Config) (cs sf sd : Bool) (e : Env) (v0 : Int) (e0 : Nat)
        (ops : List ValveManager.Op),
      goodFiles ((ValveManager.runOps cfg ops
        (ValveManager.begin cfg cs sf sd e (ValveManager.initState v0 e0)).1).1.files) = true)
    ∧ (∀ (mode : ControlMode) (e : Env) (es : List Env) (v0 : Int) (e0 : Nat),
      goodFiles ((runLoop mode es ((setup mode e (mainInit v0 e0)).1)).1.files) = true)
    ∧ logLine (isoTimestamp 2025 3 7 4 5 6) 12000 250 1795 =
        "2025-03-07T04:05:06Z,12000,250,1795\n"
    ∧ headerLine = "timestamp,voltage,current,valve_position"
    ∧ logFilename 2025 3 7 = "gems_pump_2025-03-07.csv" := by
  refine ⟨?_, ?_, ?_, rfl, ?_⟩
  · intro cfg cs sf sd e v0 e0 ops
    have h0 : vmInv (ValveManager.initState v0 e0) :=
      ⟨rfl, Or.inl rfl, fun h => Bool.noConfusion h⟩
    exact (vm_runOps_inv cfg ops _ (vm_begin_inv cfg cs sf sd e _ h0)).1
  · intro mode e es v0 e0
    have h0 : mainInv (mainInit v0 e0) := ⟨rfl, Or.inl rfl⟩
    exact (runLoop_inv mode es _ (setup_inv mode e _ h0)).1
  · rfl
  · rfl

/-- C9: on a ValveManager whose `begin` has not succeeded (`_initialized`
false), the three accessors return 0 and `update`, `setValvePosition` and
`logData` return without issuing any actuation, writing any storage, or
changing any state. -/
theorem C9_uninitialized_noop :
    ∀ (cfg : Config) (e : Env) (p : Int) (n : Nat) (v c : Int)
      (s : ValveManager.State), s.initialized = false →
      ValveManager.getCurrentPosition s = 0 ∧
      ValveManager.getVoltage s v = 0 ∧
      ValveManager.getCurrent s c = 0 ∧
      ValveManager.update cfg e s = (s, none) ∧
      ValveManager.setValvePosition p n s = (s, none) ∧
      ValveManager.logData e s = s := by
  intro cfg e p n v c s h
  refine ⟨?_, ?_, ?_, ?_, ?_, ?_⟩
  · simp [ValveManager.getCurrentPosition, h]
  · simp [ValveManager.getVoltage, h]
  · simp [ValveManager.getCurrent, h]
  · simp [ValveManager.update, h]
  · simp [ValveManager.setValvePosition, h]
  · simp [ValveManager.logData, h]

/-- Witness for C9 on a freshly constructed (uninitialized) manager. -/
theorem C9_uninitialized_noop_witness :
    ValveManager.getCurrentPosition (ValveManager.initState 1205 0) = 0 ∧
    ValveManager.getVoltage (ValveManager.initState 1205 0) 12345 = 0 ∧
    ValveManager.getCurrent (ValveManager.initState 1205 0) 678 = 0 ∧
    ValveManager.update (Config.mk false 30) (mkEnv 20 2025 1 1 0 0 0 0 0 0 none)
      (ValveManager.initState 1205 0) = (ValveManager.initState 1205 0, none) ∧
    ValveManager.setValvePosition 1795 5000 (ValveManager.initState 1205 0) =
      (ValveManager.initState 1205 0, none) ∧
    ValveManager.logData (mkEnv 20 2025 1 1 0 0 0 0 0 0 none)
      (ValveManager.initState 1205 0) = ValveManager.initState 1205 0 :=
  C9_uninitialized_noop (Config.mk false 30) (mkEnv 20 2025 1 1 0 0 0 0 0 0 none)
    1795 5000 12345 678 (ValveManager.initState 1205 0) rfl

/-- C10: both schedulers depend only on the minute-of-hour and
second-of-minute of their input time — equal minutes and seconds give equal
positions whatever the hour, day, month or year — and hence repeat with a
period of one hour (adding 3600 s never changes the result). -/
theorem C10_schedule_periodicity :
    (∀ (interval t1 t2 : Nat), minuteOfT t1 = minuteOfT t2 →
      secondOfT t1 = secondOfT t2 →
      ValveManager.calculateExpectedValvePosition interval t1 =
        ValveManager.calculateExpectedValvePosition interval t2)
    ∧ (∀ (interval t : Nat),
      ValveManager.calculateExpectedValvePosition interval (t + 3600) =
        ValveManager.calculateExpectedValvePosition interval t)
    ∧ (∀ (t1 t2 : Nat), minuteOfT t1 = minuteOfT t2 → secondOfT t1 = secondOfT t2 →
      calculateExpectedValvePosition t1 = calculateExpectedValvePosition t2)
    ∧ (∀ t : Nat,
      calculateExpectedValvePosition (t + 3600) = calculateExpectedValvePosition t) := by
  have hmin : ∀ t, minuteOfT (t + 3600) = minuteOfT t := by
    intro t
    unfold minuteOfT
    omega
  have hsec : ∀ t, secondOfT (t + 3600) = secondOfT t := by
    intro t
    unfold secondOfT
    omega
  have key : ∀ (interval t1 t2 : Nat), minuteOfT t1 = minuteOfT t2 →
      secondOfT t1 = secondOfT t2 →
      ValveManager.calculateExpectedValvePosition interval t1 =
        ValveManager.calculateExpectedValvePosition interval t2 := by
    intro interval t1 t2 h1 h2
    simp only [ValveManager.calculateExpectedValvePosition]
    rw [h1, h2]
  have hmain : ∀ t : Nat,
      calculateExpectedValvePosition t =
        ValveManager.calculateExpectedValvePosition 450 t := fun t => rfl
  refine ⟨key, fun interval t => key interval _ _ (hmin t) (hsec t), ?_, ?_⟩
  · intro t1 t2 h1 h2
    rw [hmain, hmain]
    exact key 450 t1 t2 h1 h2
  · intro t
    rw [hmain, hmain]
    exact key 450 _ _ (hmin t) (hsec t)

/-- Witness for C10: 00:01:15 and 01:01:15 (t = 75 and t = 3675, equal
minute and second fields) get the same scheduled position. -/
theorem C10_schedule_periodicity_witness :
    ValveManager.calculateExpectedValvePosition 30 75 =
      ValveManager.calculateExpectedValvePosition 30 3675 :=
  C10_schedule_periodicity.1 30 75 3675 (by decide) (by decide)

end GemsPump
